import Mathlib

/-!
Shallow embedding of the health-telemetry engine of the Watch backend
(`src/routes/health.js`, `src/models/Health.js`).

JavaScript numbers are modelled as rationals (`ℚ`), JS `Math.round` as
Mathlib's `round` (both round half towards positive infinity).  A possibly
absent object field is an `Option`; JS truthiness of a number is "nonzero",
of a string "nonempty", of a boolean "is true", of an absent value "false".
Fallible upstream reads are an explicit `ReadOutcome`.
-/

namespace Watch

/-- JS `a || d` for a possibly-absent numeric field: the field's value when
present and truthy (nonzero), otherwise the default. -/
def jsOrQ (a : Option ℚ) (d : ℚ) : ℚ :=
  match a with
  | none => d
  | some v => if v = 0 then d else v

/-- JS `a || d` for a possibly-absent string field (empty string is falsy). -/
def jsOrS (a : Option String) (d : String) : String :=
  match a with
  | none => d
  | some s => if s = "" then d else s

/-- JS `a || d` for a possibly-absent boolean field. -/
def jsOrB (a : Option Bool) (d : Bool) : Bool :=
  match a with
  | none => d
  | some b => if b then b else d

/-- JS truthiness of a possibly-absent numeric field. -/
def qTruthy : Option ℚ → Bool
  | none => false
  | some v => v ≠ 0

/-- JS `a || b` where both sides are possibly-absent numbers and the result
may still be absent (used for `healthData.pulse_value || statusData.pulse_value`). -/
def jsOrOptQ (a b : Option ℚ) : Option ℚ :=
  match a with
  | none => b
  | some v => if v = 0 then b else some v

/-! ### Range classifiers (`getHeartRateStatus`, `getHeartRateZone`,
`getPulseSignalStatus` in `health.js`) -/

/-- `getHeartRateStatus(bpm)` from `health.js`. -/
def getHeartRateStatus (bpm : ℚ) : String :=
  if bpm = 0 then "No Signal"
  else if bpm < 60 then "Slow"
  else if 60 ≤ bpm ∧ bpm ≤ 100 then "Normal"
  else if 100 < bpm ∧ bpm ≤ 140 then "Elevated"
  else "High"

/-- `getHeartRateZone(bpm)` from `health.js`. -/
def getHeartRateZone (bpm : ℚ) : String :=
  if bpm = 0 then "No Signal"
  else if bpm < 60 then "Resting"
  else if bpm < 100 then "Normal"
  else if bpm < 140 then "Light Exercise"
  else if bpm < 170 then "Moderate Exercise"
  else "Intense Exercise"

/-- `getPulseSignalStatus(pulseValue)` from `health.js`; the argument may be
absent because the caller passes `healthData.pulse_value || statusData.pulse_value`
with no final fallback. -/
def getPulseSignalStatus (pulseValue : Option ℚ) : String :=
  match pulseValue with
  | none => "No Signal"
  | some v =>
    if v = 0 then "No Signal"
    else if v < 1000 then "Very Weak"
    else if v < 2000 then "Weak"
    else if v < 3000 then "Normal"
    else if v < 4000 then "Strong"
    else "Very Strong"

/-! ### Blood-pressure estimator (`predictBloodPressure` in `health.js`) -/

/-- The `factors` sub-object of a valid `predictBloodPressure` result. -/
structure BPFactors where
  heartRateFactor : ℚ
  ageFactor : ℚ
  bmiFactor : ℚ
  genderFactor : ℚ
  deriving DecidableEq, Repr

/-- Result object of `predictBloodPressure`.  The two JS return literals have
different key sets; a key absent from the returned literal is `none`. -/
structure BPResult where
  systolic : ℤ
  diastolic : ℤ
  valid : Bool
  message : Option String
  category : Option String
  confidence : Option String
  factors : Option BPFactors
  deriving DecidableEq, Repr

/-- `predictBloodPressure(heartRate, age, isMale, weight, height)` from
`health.js` (the JS defaults are `age=30, isMale=true, weight=70, height=170`;
callers in this file always pass all five arguments). -/
def predictBloodPressure (heartRate age : ℚ) (isMale : Bool) (weight height : ℚ) : BPResult :=
  if heartRate = 0 ∨ heartRate < 30 ∨ 220 < heartRate then
    { systolic := 0, diastolic := 0, valid := false,
      message := some "Invalid heart rate",
      category := none, confidence := none, factors := none }
  else
    let baseSystolic : ℚ := 120
    let baseDiastolic : ℚ := 80
    let hrFactor : ℚ := (heartRate - 70) * (1 / 2)
    let ageFactor : ℚ := max 0 ((age - 30) * (3 / 10))
    let bmi : ℚ := weight / ((height / 100) ^ 2)
    let bmiFactor : ℚ := max 0 ((bmi - 25) * (1 / 2))
    let genderFactor : ℚ := if isMale then 2 else 0
    let systolic : ℤ := round (baseSystolic + hrFactor + ageFactor + bmiFactor + genderFactor)
    let diastolic : ℤ := round (baseDiastolic + hrFactor * (1 / 2) + ageFactor * (1 / 2) + bmiFactor * (1 / 2))
    let category : String :=
      if systolic < 120 ∧ diastolic < 80 then "Normal"
      else if systolic < 130 ∧ diastolic < 80 then "Elevated"
      else if systolic < 140 ∨ diastolic < 90 then "Stage 1 Hypertension"
      else "Stage 2 Hypertension"
    { systolic := systolic, diastolic := diastolic, valid := true,
      message := none,
      category := some category, confidence := some "Low",
      factors := some ⟨hrFactor, ageFactor, bmiFactor, genderFactor⟩ }

/-! ### Raw telemetry records (the live-data sub-trees) -/

/-- The `health-tracker/current-status` sub-tree: every field optional. -/
structure RawStatusRecord where
  latitude : Option ℚ
  longitude : Option ℚ
  gps_valid : Option Bool
  wifi_connected : Option Bool
  firebase_ready : Option Bool
  timestamp : Option String
  last_update : Option ℚ
  device : Option String
  bpm : Option ℚ
  bpm_valid : Option Bool
  pulse_value : Option ℚ
  deriving DecidableEq, Repr

/-- The record with every field absent (the empty-object fallback applied to
a null `snapshot.val()`). -/
def emptyStatus : RawStatusRecord :=
  ⟨none, none, none, none, none, none, none, none, none, none, none⟩

/-- The optional `userProfile` object of a `health-tracker/latest-health` record. -/
structure UserProfile where
  age : ℚ
  isMale : Bool
  weight : ℚ
  height : ℚ
  deriving DecidableEq, Repr

/-- The `health-tracker/latest-health` sub-tree: every field optional. -/
structure RawHealthRecord where
  bpm : Option ℚ
  valid_bpm : Option Bool
  pulse_value : Option ℚ
  waveform : Option (List ℚ)
  userProfile : Option UserProfile
  health_id : Option String
  timestamp : Option String
  deriving DecidableEq, Repr

/-- The health record with every field absent. -/
def emptyHealth : RawHealthRecord :=
  ⟨none, none, none, none, none, none, none⟩

/-- Outcome of an upstream read: the snapshot value (possibly null) or a
transport failure (the `catch` branch). -/
inductive ReadOutcome (α : Type)
  | ok (v : α)
  | failure
  deriving DecidableEq, Repr

/-- Symbolic ISO-8601 rendering of a time: derived either from a record's raw
timestamp (`new Date(raw).toISOString()`) or from the current instant
(`new Date().toISOString()`).  Date parsing/printing itself is not modelled. -/
inductive IsoTime
  | ofRaw (raw : String)
  | ofNow (nowMs : ℚ)
  deriving DecidableEq, Repr

/-! ### Latest-position view (`getLatestData` in `health.js`) -/

/-- The merged object `getLatestData` responds with (restricted to the fields
of the hard-coded default record; the spread also copies any extra source
fields, which no claim concerns). -/
structure LatestView where
  latitude : ℚ
  longitude : ℚ
  gps_valid : Bool
  timestamp : String
  wifi_connected : Bool
  firebase_ready : Bool
  last_update : ℚ
  deriving DecidableEq, Repr

/-- `getLatestData`'s merge of the source record onto the default record:
spread semantics for the plain fields (a present field overrides, whatever its
value), then the explicit `timestamp: data.timestamp || defaultData.timestamp`
and `last_update: data.last_update || defaultData.last_update` overwrites.
`nowIso` stands for `new Date().toISOString()` and `nowMs` for `Date.now()`. -/
def getLatestData (data : Option RawStatusRecord) (nowIso : String) (nowMs : ℚ) : LatestView :=
  let d := data.getD emptyStatus
  { latitude := d.latitude.getD 0
    longitude := d.longitude.getD 0
    gps_valid := d.gps_valid.getD false
    timestamp := jsOrS d.timestamp nowIso
    wifi_connected := d.wifi_connected.getD false
    firebase_ready := d.firebase_ready.getD false
    last_update := jsOrQ d.last_update nowMs }

/-! ### Status cache (`statusCache` and `getStatus` in `health.js`) -/

/-- The simplified status object served by `getStatus`. -/
structure StatusView where
  wifi : Bool
  gps : Bool
  heartbeat : Bool
  lastUpdate : IsoTime
  deriving DecidableEq, Repr

/-- The module-level `statusCache` singleton. -/
structure StatusCache where
  data : Option StatusView
  timestamp : Option ℚ
  ttl : ℚ
  deriving DecidableEq, Repr

/-- The cache as initialised at module load. -/
def initialStatusCache : StatusCache :=
  { data := none, timestamp := none, ttl := 2000 }

/-- The guard `statusCache.data && statusCache.timestamp &&
(now - statusCache.timestamp < statusCache.ttl)`: both fields must be truthy
(a stored timestamp of `0` is falsy in JS) and the entry still fresh. -/
def cacheHit (c : StatusCache) (now : ℚ) : Bool :=
  c.data.isSome &&
    match c.timestamp with
    | none => false
    | some t => if t = 0 then false else decide (now - t < c.ttl)

/-- Normalisation of the status sub-tree performed on a cache miss. -/
def normalizeStatus (data : RawStatusRecord) (nowMs : ℚ) : StatusView :=
  { wifi := data.wifi_connected.getD false
    gps := data.gps_valid.getD false
    heartbeat := data.bpm_valid.getD false
    lastUpdate :=
      match data.timestamp with
      | none => .ofNow nowMs
      | some t => if t = "" then .ofNow nowMs else .ofRaw t }

/-- The offline status synthesised when the upstream read fails. -/
def offlineStatus (nowMs : ℚ) : StatusView :=
  { wifi := false, gps := false, heartbeat := false, lastUpdate := .ofNow nowMs }

/-- `getStatus`: returns the served view, the cache after the call, and how
many upstream reads the call performed (0 on a hit, 1 otherwise).  On a hit
the cached value is returned unchanged; on a miss the fresh (or, on failure,
offline) view is stored with the current timestamp. -/
def getStatus (cache : StatusCache) (now : ℚ)
    (upstream : ReadOutcome (Option RawStatusRecord)) : StatusView × StatusCache × Nat :=
  if cacheHit cache now then
    (cache.data.getD (offlineStatus now), cache, 0)
  else
    match upstream with
    | .ok d =>
      let status := normalizeStatus (d.getD emptyStatus) now
      (status, { data := some status, timestamp := some now, ttl := cache.ttl }, 1)
    | .failure =>
      let off := offlineStatus now
      (off, { data := some off, timestamp := some now, ttl := cache.ttl }, 1)

/-! ### Composite health view (`getHealthData` in `health.js`) -/

/-- The `heartRate` block of the composite response. -/
structure HeartRateBlock where
  bpm : ℚ
  valid : Bool
  status : String
  zone : String
  deriving DecidableEq, Repr

/-- The `pulse` block of the composite response. -/
structure PulseBlock where
  value : ℚ
  threshold : ℚ
  signal : String
  deriving DecidableEq, Repr

/-- The `bloodPressure` block of the success path: the spread estimator result
plus the `lastUpdated` and `note` keys. -/
structure BPBlockOk where
  bp : BPResult
  lastUpdated : String
  note : String
  deriving DecidableEq, Repr

/-- The success-path response body of `getHealthData`. -/
structure HealthViewOk where
  heartRate : HeartRateBlock
  bloodPressure : BPBlockOk
  pulse : PulseBlock
  waveform : List ℚ
  timestamp : String
  last_update : ℚ
  device : String
  healthId : String
  deriving DecidableEq, Repr

/-- The fixed default user profile. -/
def defaultProfile : UserProfile := ⟨30, true, 70, 170⟩

/-- The success branch of `getHealthData`, applied to the two (possibly null)
snapshots after the empty-object fallback.  `currentTimestamp` stands for
`new Date().toISOString()` and `nowMs` for `Date.now()`. -/
def getHealthDataOk (statusData : RawStatusRecord) (healthData : RawHealthRecord)
    (currentTimestamp : String) (nowMs : ℚ) : HealthViewOk :=
  let heartRate := jsOrQ healthData.bpm (jsOrQ statusData.bpm 0)
  let userProfile := healthData.userProfile.getD defaultProfile
  let bloodPressure :=
    predictBloodPressure heartRate userProfile.age userProfile.isMale
      userProfile.weight userProfile.height
  { heartRate :=
      { bpm := heartRate
        valid := jsOrB healthData.valid_bpm (jsOrB statusData.bpm_valid false)
        status := getHeartRateStatus heartRate
        zone := getHeartRateZone heartRate }
    bloodPressure :=
      { bp := bloodPressure
        lastUpdated := currentTimestamp
        note := "Estimated based on heart rate and user profile" }
    pulse :=
      { value := jsOrQ healthData.pulse_value (jsOrQ statusData.pulse_value 0)
        threshold := 3300
        signal := getPulseSignalStatus (jsOrOptQ healthData.pulse_value statusData.pulse_value) }
    waveform := healthData.waveform.getD []
    timestamp := jsOrS statusData.timestamp (jsOrS healthData.timestamp currentTimestamp)
    last_update := jsOrQ statusData.last_update nowMs
    device := jsOrS statusData.device "ESP32_Health_Tracker"
    healthId := jsOrS healthData.health_id "current" }

/-- The `bloodPressure` block of the failure path (its own literal). -/
structure BPBlockOffline where
  systolic : ℤ
  diastolic : ℤ
  valid : Bool
  message : String
  deriving DecidableEq, Repr

/-- The failure-path (catch branch) response body of `getHealthData`. -/
structure HealthViewOffline where
  heartRate : HeartRateBlock
  bloodPressure : BPBlockOffline
  pulse : PulseBlock
  waveform : List ℚ
  timestamp : String
  last_update : ℚ
  device : String
  healthId : String
  deriving DecidableEq, Repr

/-- The offline body served from the catch branch of `getHealthData`. -/
def getHealthDataOffline (currentTimestamp : String) (nowMs : ℚ) : HealthViewOffline :=
  { heartRate := ⟨0, false, "No Signal", "No Signal"⟩
    bloodPressure := ⟨0, 0, false, "No data available"⟩
    pulse := ⟨0, 3300, "No Signal"⟩
    waveform := []
    timestamp := currentTimestamp
    last_update := nowMs
    device := "ESP32_Health_Tracker"
    healthId := "offline" }

/-- Body of a `getHealthData` response: one of the two literals. -/
inductive HealthDataBody
  | ok (v : HealthViewOk)
  | offline (v : HealthViewOffline)
  deriving DecidableEq, Repr

/-- An HTTP JSON response: status code and body. -/
structure HttpJson (β : Type) where
  status : Nat
  body : β
  deriving DecidableEq, Repr

/-- `getHealthData` as a whole: both the success branch and the catch branch
answer with `res.json`, i.e. status 200. -/
def getHealthData (r : ReadOutcome (Option RawStatusRecord × Option RawHealthRecord))
    (currentTimestamp : String) (nowMs : ℚ) : HttpJson HealthDataBody :=
  match r with
  | .ok (s, h) =>
    ⟨200, .ok (getHealthDataOk (s.getD emptyStatus) (h.getD emptyHealth) currentTimestamp nowMs)⟩
  | .failure => ⟨200, .offline (getHealthDataOffline currentTimestamp nowMs)⟩

/-- Keys of the object `predictBloodPressure` returns, read off from which
optional members the returned literal carries. -/
def bpResultKeys (r : BPResult) : List String :=
  ["systolic", "diastolic"]
    ++ (if r.category.isSome then ["category"] else [])
    ++ ["valid"]
    ++ (if r.message.isSome then ["message"] else [])
    ++ (if r.confidence.isSome then ["confidence"] else [])
    ++ (if r.factors.isSome then ["factors"] else [])

/-- Keys of the success path's nested `bloodPressure` object. -/
def healthOkBpKeys (v : HealthViewOk) : List String :=
  bpResultKeys v.bloodPressure.bp ++ ["lastUpdated", "note"]

/-- Keys of the failure path's nested `bloodPressure` object. -/
def healthOfflineBpKeys : List String :=
  ["systolic", "diastolic", "valid", "message"]

/-- Top-level keys of the success-path response body. -/
def healthOkTopKeys : List String :=
  ["heartRate", "bloodPressure", "pulse", "waveform", "timestamp", "last_update", "device", "healthId"]

/-- Top-level keys of the failure-path response body. -/
def healthOfflineTopKeys : List String :=
  ["heartRate", "bloodPressure", "pulse", "waveform", "timestamp", "last_update", "device", "healthId"]

/-! ### Reading validator (`validateHeartRate` in `health.js`) -/

/-- A range check record (`pulseValue`, `heartRate`, `signalQuality`). -/
structure RangeCheck where
  valid : Bool
  value : Option ℚ
  range : String
  deriving DecidableEq, Repr

/-- The `waveform` check record. -/
structure WaveformCheck where
  valid : Bool
  length : ℚ
  required : ℚ
  deriving DecidableEq, Repr

/-- The four-field `validation` object. -/
structure HeartRateValidation where
  pulseValue : RangeCheck
  heartRate : RangeCheck
  waveform : WaveformCheck
  signalQuality : RangeCheck
  deriving DecidableEq, Repr

/-- `lo <= v && v <= hi` on a possibly-absent field (comparisons against an
absent value are false in JS). -/
def inRange (v : Option ℚ) (lo hi : ℚ) : Bool :=
  match v with
  | none => false
  | some x => lo ≤ x ∧ x ≤ hi

/-- The `validation` object built from a non-null latest-health record. -/
def buildValidation (data : RawHealthRecord) : HeartRateValidation :=
  { pulseValue :=
      { valid := inRange data.pulse_value 500 8000
        value := data.pulse_value
        range := "500-8000" }
    heartRate :=
      { valid := inRange data.bpm 30 220 && data.valid_bpm.getD false
        value := data.bpm
        range := "30-220 BPM" }
    waveform :=
      { valid := match data.waveform with
                 | none => false
                 | some w => decide (10 ≤ w.length)
        length := match data.waveform with
                  | none => 0
                  | some w => w.length
        required := 10 }
    signalQuality :=
      { valid := inRange data.pulse_value 500 8000
        value := data.pulse_value
        range := "500-8000" } }

/-- `Object.values(validation)` in insertion order, projected to `.valid`. -/
def validationChecks (v : HeartRateValidation) : List Bool :=
  [v.pulseValue.valid, v.heartRate.valid, v.waveform.valid, v.signalQuality.valid]

/-- `Object.values(validation).every(v => v.valid)`. -/
def validationIsValid (v : HeartRateValidation) : Bool :=
  (validationChecks v).all (fun b => b)

/-- A `validateHeartRate` response: the early 404 for a null record, or the
normal verdict. -/
inductive ValidateResponse
  | noData (status : Nat) (valid : Bool) (message : String) (reason : String)
  | verdict (status : Nat) (valid : Bool) (message : String) (validation : HeartRateValidation)
  deriving DecidableEq, Repr

/-- `validateHeartRate` on the latest-health snapshot value. -/
def validateHeartRate (d : Option RawHealthRecord) : ValidateResponse :=
  match d with
  | none => .noData 404 false "No heartbeat data found" "No data available"
  | some data =>
    let validation := buildValidation data
    let isValid := validationIsValid validation
    .verdict 200 isValid
      (if isValid then "Heart rate validation passed" else "Heart rate validation failed")
      validation

/-! ### Save-measurement (`saveMeasurement` in `health.js`, `Health.js` model) -/

/-- The request body of the save-measurement operation. -/
structure SaveBody where
  heartRate : Option ℚ
  systolic : Option ℚ
  diastolic : Option ℚ
  deriving DecidableEq, Repr

/-- A persisted `Health` document (`src/models/Health.js`). -/
structure StoredMeasurement where
  user : String
  heartRate : ℚ
  systolic : ℚ
  diastolic : ℚ
  timestamp : ℚ
  deriving DecidableEq, Repr

/-- A `saveMeasurement` response. -/
inductive SaveResponse
  | clientError (status : Nat) (message : String)
  | saved (success : Bool) (measurement : StoredMeasurement)
  deriving DecidableEq, Repr

/-- `saveMeasurement`: the response together with the list of documents the
call persisted. -/
def saveMeasurement (userId : String) (body : SaveBody) (now : ℚ) :
    SaveResponse × List StoredMeasurement :=
  if qTruthy body.heartRate = false ∨ qTruthy body.systolic = false ∨
      qTruthy body.diastolic = false then
    (.clientError 400 "Missing required fields", [])
  else
    let m : StoredMeasurement :=
      ⟨userId, (body.heartRate.getD 0), (body.systolic.getD 0), (body.diastolic.getD 0), now⟩
    (.saved true m, [m])

/-! ### Weekly report (`getWeeklyReport` in `health.js`) -/

/-- A BSON date as the aggregation pipeline consumes it: the epoch-ms value
(used by the `$gte` match and the `$sort`) together with its `%Y-%m-%d`
rendering (what `$dateToString` produces).  Calendar formatting itself is not
re-implemented; a date value carries its rendering. -/
structure DateValue where
  ms : ℚ
  ymd : String
  deriving DecidableEq, Repr

/-- A document of the `Health` collection as the pipeline reads it. -/
structure HealthDoc where
  user : String
  heartRate : ℚ
  systolic : ℚ
  diastolic : ℚ
  timestamp : DateValue
  deriving DecidableEq, Repr

/-- One `$group` output entry of the weekly report. -/
structure DailyAverage where
  id : String
  avgHeartRate : ℚ
  avgSystolic : ℚ
  avgDiastolic : ℚ
  date : DateValue
  deriving DecidableEq, Repr

/-- Arithmetic mean (`$avg`). -/
def listAvg (l : List ℚ) : ℚ := l.sum / l.length

/-- Distinct group keys in first-seen order. -/
def dedupKeys (l : List String) : List String :=
  l.foldl (fun acc k => if k ∈ acc then acc else acc ++ [k]) []

/-- Insert a group into a list sorted ascending by the epoch-ms of its `date`,
after any entry with an equal or smaller key (stable). -/
def insertByDate (g : DailyAverage) : List DailyAverage → List DailyAverage
  | [] => [g]
  | h :: t => if h.date.ms ≤ g.date.ms then h :: insertByDate g t else g :: h :: t

/-- The `$sort: date ascending` stage (stable insertion sort). -/
def sortByDate (l : List DailyAverage) : List DailyAverage :=
  l.foldl (fun acc g => insertByDate g acc) []

/-- The aggregation pipeline of `getWeeklyReport`: `$match` on the user and
`timestamp >= sevenDaysAgo`, `$group` by the `%Y-%m-%d` rendering computing
the three `$avg` means and `$first` timestamp, then `$sort` ascending by that
first timestamp. -/
def getWeeklyReport (docs : List HealthDoc) (userId : String) (sevenDaysAgo : ℚ) :
    List DailyAverage :=
  let matched := docs.filter (fun d => decide (d.user = userId) && decide (sevenDaysAgo ≤ d.timestamp.ms))
  let keys := dedupKeys (matched.map (fun d => d.timestamp.ymd))
  let groups := keys.map (fun k =>
    let g := matched.filter (fun d => decide (d.timestamp.ymd = k))
    { id := k
      avgHeartRate := listAvg (g.map (fun d => d.heartRate))
      avgSystolic := listAvg (g.map (fun d => d.systolic))
      avgDiastolic := listAvg (g.map (fun d => d.diastolic))
      date := (g.head?.map (fun d => d.timestamp)).getD ⟨0, ""⟩ })
  sortByDate groups

/-! ## Claims -/

/-- C6: the blood-pressure estimator returns valid false with systolic 0 and
diastolic 0 exactly when the heart rate is falsy (0) or lies outside the
interval 30..220. -/
theorem predictBloodPressure_invalid_iff (heartRate age : ℚ) (isMale : Bool)
    (weight height : ℚ) :
    ((predictBloodPressure heartRate age isMale weight height).valid = false ∧
      (predictBloodPressure heartRate age isMale weight height).systolic = 0 ∧
      (predictBloodPressure heartRate age isMale weight height).diastolic = 0) ↔
      (heartRate = 0 ∨ heartRate < 30 ∨ 220 < heartRate) := by
  by_cases h : heartRate = 0 ∨ heartRate < 30 ∨ 220 < heartRate
  · simp [predictBloodPressure, h]
  · simp [predictBloodPressure, h]

/-- C8 counterexample: at heart rate 215 (inside the accepted range) the claim
fails: heart rate 225 leaves the accepted range, so the systolic estimate drops
from 195 to 0 instead of strictly increasing. -/
theorem predictBloodPressure_hr10_decreases_at_215 :
    (predictBloodPressure (215 + 10) 30 true 70 170).systolic <
      (predictBloodPressure 215 30 true 70 170).systolic ∧
    (predictBloodPressure 215 30 true 70 170).systolic = 195 ∧
    (predictBloodPressure (215 + 10) 30 true 70 170).systolic = 0 := by
  norm_num [predictBloodPressure, round_eq]

/-- C8 (amended): whenever the heart rate and the heart rate plus 10 both lie
in the accepted interval 30..220, raising the heart rate by 10 while holding
age, sex, weight and height fixed strictly increases the systolic estimate. -/
theorem predictBloodPressure_hr10_increases (heartRate age : ℚ) (isMale : Bool)
    (weight height : ℚ) (h30 : 30 ≤ heartRate) (h220 : heartRate + 10 ≤ 220) :
    (predictBloodPressure heartRate age isMale weight height).systolic <
      (predictBloodPressure (heartRate + 10) age isMale weight height).systolic := by
  have g1 : ¬ (heartRate = 0 ∨ heartRate < 30 ∨ 220 < heartRate) := by
    push_neg
    exact ⟨ne_of_gt (by linarith), by linarith, by linarith⟩
  have g2 : ¬ (heartRate + 10 = 0 ∨ heartRate + 10 < 30 ∨ 220 < heartRate + 10) := by
    push_neg
    exact ⟨ne_of_gt (by linarith), by linarith, by linarith⟩
  simp only [predictBloodPressure, if_neg g1, if_neg g2]
  have key : (120 : ℚ) + (heartRate + 10 - 70) * (1 / 2) + max 0 ((age - 30) * (3 / 10)) +
      max 0 ((weight / ((height / 100) ^ 2) - 25) * (1 / 2)) +
      (if isMale then (2 : ℚ) else 0) =
      (120 + (heartRate - 70) * (1 / 2) + max 0 ((age - 30) * (3 / 10)) +
        max 0 ((weight / ((height / 100) ^ 2) - 25) * (1 / 2)) +
        (if isMale then (2 : ℚ) else 0)) + 5 := by
    ring
  rw [key]
  have h5 := round_add_int (120 + (heartRate - 70) * (1 / 2) + max 0 ((age - 30) * (3 / 10)) +
    max 0 ((weight / ((height / 100) ^ 2) - 25) * (1 / 2)) +
    (if isMale then (2 : ℚ) else 0)) (5 : ℤ)
  push_cast at h5
  rw [h5]
  omega

/-- C8 witness: a concrete instance of the amended monotonicity, at heart
rate 100 and the default profile. -/
theorem predictBloodPressure_hr10_increases_witness :
    (predictBloodPressure 100 30 true 70 170).systolic <
      (predictBloodPressure (100 + 10) 30 true 70 170).systolic :=
  predictBloodPressure_hr10_increases 100 30 true 70 170 (by norm_num) (by norm_num)

/-- C5: the save-measurement operation answers a 400 client error and persists
nothing exactly when one of the three body fields is missing or falsy, and
persists exactly one measurement stamped with the current time otherwise; in
particular a zero heart rate is rejected even alongside valid systolic and
diastolic values. -/
theorem saveMeasurement_spec (u : String) (body : SaveBody) (now : ℚ) :
    (((saveMeasurement u body now).1 = .clientError 400 "Missing required fields" ∧
        (saveMeasurement u body now).2 = []) ↔
      (qTruthy body.heartRate = false ∨ qTruthy body.systolic = false ∨
        qTruthy body.diastolic = false)) ∧
    (qTruthy body.heartRate = true → qTruthy body.systolic = true →
      qTruthy body.diastolic = true →
      saveMeasurement u body now =
        (.saved true ⟨u, body.heartRate.getD 0, body.systolic.getD 0, body.diastolic.getD 0, now⟩,
          [⟨u, body.heartRate.getD 0, body.systolic.getD 0, body.diastolic.getD 0, now⟩])) ∧
    saveMeasurement u ⟨some 0, some 120, some 80⟩ now =
      (.clientError 400 "Missing required fields", []) := by
  refine ⟨?_, fun h1 h2 h3 => ?_, by simp [saveMeasurement, qTruthy]⟩
  · by_cases hg : qTruthy body.heartRate = false ∨ qTruthy body.systolic = false ∨
        qTruthy body.diastolic = false
    · simp [saveMeasurement, hg]
    · simp [saveMeasurement, hg]
  · have hg : ¬ (qTruthy body.heartRate = false ∨ qTruthy body.systolic = false ∨
        qTruthy body.diastolic = false) := by
      simp [h1, h2, h3]
    simp [saveMeasurement, hg]

/-- C7: the validator's overall verdict is the conjunction of the four
sub-checks; an absent or empty waveform forces a false overall verdict; on the
all-absent record every sub-check is itself false (absence fails the check
rather than erroring). -/
theorem validation_isValid_conjunction (data : RawHealthRecord) :
    (validationIsValid (buildValidation data) =
      ((buildValidation data).pulseValue.valid && (buildValidation data).heartRate.valid &&
        (buildValidation data).waveform.valid && (buildValidation data).signalQuality.valid)) ∧
    ((data.waveform = none ∨ data.waveform = some []) →
      validationIsValid (buildValidation data) = false) ∧
    ((buildValidation emptyHealth).pulseValue.valid = false ∧
      (buildValidation emptyHealth).heartRate.valid = false ∧
      (buildValidation emptyHealth).waveform.valid = false ∧
      (buildValidation emptyHealth).signalQuality.valid = false) := by
  refine ⟨?_, fun h => ?_, by decide⟩
  · simp [validationIsValid, validationChecks, Bool.and_assoc]
  · rcases h with h | h <;>
      simp [validationIsValid, validationChecks, buildValidation, h]

/-- C10: a null latest-health record is answered with the distinct 404 no-data
response, while any present record (even one with every field absent) gets a
normal verdict carrying the four sub-checks. -/
theorem validateHeartRate_null_record :
    validateHeartRate none = .noData 404 false "No heartbeat data found" "No data available" ∧
    (∀ data : RawHealthRecord, ∃ m,
      validateHeartRate (some data) =
        .verdict 200 (validationIsValid (buildValidation data)) m (buildValidation data)) ∧
    validateHeartRate (some emptyHealth) =
      .verdict 200 false "Heart rate validation failed" (buildValidation emptyHealth) := by
  refine ⟨rfl, fun data => ⟨_, rfl⟩, by decide⟩

/-- C1 counterexample: with health.bpm present but 0 and status.bpm 75, the
composite view resolves the heart rate to 75, not 0: the or-chain skips a
falsy present field, unlike the nullish coalescing the claim describes. -/
theorem getHealthData_bpm_zero_falls_through :
    (getHealthDataOk { emptyStatus with bpm := some 75 }
        { emptyHealth with bpm := some 0 } "t" 0).heartRate.bpm = 75 ∧
    (getHealthDataOk { emptyStatus with bpm := some 75 }
        { emptyHealth with bpm := some 0 } "t" 0).heartRate.bpm ≠ 0 := by
  constructor <;> decide

/-- C1 (amended): the composite view resolves the heart rate as the or-chain
health.bpm or status.bpm or 0 — a present nonzero health.bpm wins, a missing
or zero health.bpm falls back to a present nonzero status.bpm, and otherwise
the rate is 0 — and the derived status, zone and blood-pressure estimate are
all computed from that resolved rate. -/
theorem getHealthData_heartRate_resolution (s : RawStatusRecord) (h : RawHealthRecord)
    (ts : String) (nowMs : ℚ) :
    (∀ v : ℚ, h.bpm = some v → v ≠ 0 →
      (getHealthDataOk s h ts nowMs).heartRate.bpm = v) ∧
    ((h.bpm = none ∨ h.bpm = some 0) → ∀ w : ℚ, s.bpm = some w → w ≠ 0 →
      (getHealthDataOk s h ts nowMs).heartRate.bpm = w) ∧
    ((h.bpm = none ∨ h.bpm = some 0) → (s.bpm = none ∨ s.bpm = some 0) →
      (getHealthDataOk s h ts nowMs).heartRate.bpm = 0) ∧
    (getHealthDataOk s h ts nowMs).heartRate.status =
      getHeartRateStatus ((getHealthDataOk s h ts nowMs).heartRate.bpm) ∧
    (getHealthDataOk s h ts nowMs).heartRate.zone =
      getHeartRateZone ((getHealthDataOk s h ts nowMs).heartRate.bpm) ∧
    (getHealthDataOk s h ts nowMs).bloodPressure.bp =
      predictBloodPressure ((getHealthDataOk s h ts nowMs).heartRate.bpm)
        (h.userProfile.getD defaultProfile).age (h.userProfile.getD defaultProfile).isMale
        (h.userProfile.getD defaultProfile).weight (h.userProfile.getD defaultProfile).height := by
  refine ⟨fun v hv hne => ?_, fun hh w hw hne => ?_, fun hh hs => ?_, rfl, rfl, rfl⟩
  · simp [getHealthDataOk, jsOrQ, hv, hne]
  · rcases hh with hh | hh <;> simp [getHealthDataOk, jsOrQ, hh, hw, hne]
  · rcases hh with hh | hh <;> rcases hs with hs | hs <;>
      simp [getHealthDataOk, jsOrQ, hh, hs]

/-- C9 counterexample: a last_update field that is present but 0 (falsy) does
not override the default: the merged view carries the default current time,
contradicting the claim that every present field overrides the defaults. -/
theorem getLatestData_present_falsy_not_overriding :
    (getLatestData (some { emptyStatus with last_update := some 0 }) "NOW" 777).last_update = 777 ∧
    (getLatestData (some { emptyStatus with last_update := some 0 }) "NOW" 777).last_update ≠ 0 := by
  constructor <;> decide

/-- C9 (amended): in the merged latest-position view the plain fields take a
present record value whatever it is, while timestamp and last_update take the
record's value only when it is present and truthy, falling back to the default
when absent or falsy; in particular a source with gps_valid true and latitude
12.3 but no timestamp carries the default current timestamp. -/
theorem getLatestData_merge_spec (d : RawStatusRecord) (nowIso : String) (nowMs : ℚ) :
    (∀ v, d.latitude = some v → (getLatestData (some d) nowIso nowMs).latitude = v) ∧
    (∀ v, d.longitude = some v → (getLatestData (some d) nowIso nowMs).longitude = v) ∧
    (∀ b, d.gps_valid = some b → (getLatestData (some d) nowIso nowMs).gps_valid = b) ∧
    (∀ b, d.wifi_connected = some b → (getLatestData (some d) nowIso nowMs).wifi_connected = b) ∧
    (∀ b, d.firebase_ready = some b → (getLatestData (some d) nowIso nowMs).firebase_ready = b) ∧
    (d.timestamp = none → (getLatestData (some d) nowIso nowMs).timestamp = nowIso) ∧
    (∀ s, d.timestamp = some s → s ≠ "" → (getLatestData (some d) nowIso nowMs).timestamp = s) ∧
    (d.timestamp = some "" → (getLatestData (some d) nowIso nowMs).timestamp = nowIso) ∧
    (d.last_update = none → (getLatestData (some d) nowIso nowMs).last_update = nowMs) ∧
    (∀ v, d.last_update = some v → v ≠ 0 → (getLatestData (some d) nowIso nowMs).last_update = v) ∧
    (d.last_update = some 0 → (getLatestData (some d) nowIso nowMs).last_update = nowMs) ∧
    (getLatestData (some { emptyStatus with gps_valid := some true, latitude := some (123 / 10) })
        nowIso nowMs).timestamp = nowIso ∧
    (getLatestData (some { emptyStatus with gps_valid := some true, latitude := some (123 / 10) })
        nowIso nowMs).gps_valid = true := by
  refine ⟨fun v hv => ?_, fun v hv => ?_, fun b hb => ?_, fun b hb => ?_, fun b hb => ?_,
      fun hn => ?_, fun s hs hne => ?_, fun he => ?_, fun hn => ?_, fun v hv hne => ?_,
      fun h0 => ?_, ?_, ?_⟩ <;>
    simp [getLatestData, jsOrS, jsOrQ, emptyStatus, *]

/-- C2 counterexample: the success path's nested bloodPressure object always
carries a lastUpdated key, which the offline payload's bloodPressure object
lacks, so the two key sets are not identical. -/
theorem getHealthData_bp_keyset_differs :
    "lastUpdated" ∈ healthOkBpKeys (getHealthDataOk emptyStatus emptyHealth "t" 0) ∧
    "lastUpdated" ∉ healthOfflineBpKeys := by
  constructor <;> decide

/-- C2 (amended): the composite health view answers status 200 on every read
outcome; on a read failure the body is the fixed offline payload with heart
rate 0, status and zone No Signal, systolic and diastolic 0 and pulse value 0;
the top-level key sets of the success and failure payloads coincide (the key
sets of their nested bloodPressure objects do not). -/
theorem getHealthData_offline_shape
    (r : ReadOutcome (Option RawStatusRecord × Option RawHealthRecord))
    (ts : String) (nowMs : ℚ) :
    (getHealthData r ts nowMs).status = 200 ∧
    (getHealthData .failure ts nowMs).body = .offline (getHealthDataOffline ts nowMs) ∧
    (getHealthDataOffline ts nowMs).heartRate = ⟨0, false, "No Signal", "No Signal"⟩ ∧
    (getHealthDataOffline ts nowMs).bloodPressure = ⟨0, 0, false, "No data available"⟩ ∧
    (getHealthDataOffline ts nowMs).pulse = ⟨0, 3300, "No Signal"⟩ ∧
    (getHealthDataOffline ts nowMs).waveform = [] ∧
    healthOfflineTopKeys = healthOkTopKeys := by
  refine ⟨?_, rfl, rfl, rfl, rfl, rfl, rfl⟩
  cases r with
  | ok v => rfl
  | failure => rfl

/-- A cache hit serves the stored value unchanged with no upstream read. -/
theorem getStatus_hit_eq (c : StatusCache) (now : ℚ) (u : ReadOutcome (Option RawStatusRecord))
    (h : cacheHit c now = true) :
    getStatus c now u = (c.data.getD (offlineStatus now), c, 0) := by
  simp [getStatus, h]

/-- A cache miss with a successful read normalizes and stores the snapshot. -/
theorem getStatus_miss_ok (c : StatusCache) (now : ℚ) (d : Option RawStatusRecord)
    (h : cacheHit c now = false) :
    getStatus c now (.ok d) =
      (normalizeStatus (d.getD emptyStatus) now,
        ⟨some (normalizeStatus (d.getD emptyStatus) now), some now, c.ttl⟩, 1) := by
  simp [getStatus, h]

/-- A cache miss with a failed read stores and serves the offline status. -/
theorem getStatus_miss_failure (c : StatusCache) (now : ℚ)
    (h : cacheHit c now = false) :
    getStatus c now .failure =
      (offlineStatus now, ⟨some (offlineStatus now), some now, c.ttl⟩, 1) := by
  simp [getStatus, h]

/-- C4: after a status read at time t0 that stored a value (a cache miss, with
the TTL at its 2000 ms setting), a second read issued strictly less than
2000 ms later returns exactly the stored payload, leaves the cache unchanged
and performs no upstream read, while a second read issued 2000 ms or more
after the stored timestamp performs exactly one upstream read. -/
theorem getStatus_cache_ttl (c0 : StatusCache) (t0 t1 : ℚ)
    (u0 u1 : ReadOutcome (Option RawStatusRecord))
    (httl : c0.ttl = 2000) (hmiss : cacheHit c0 t0 = false) (ht0 : 0 < t0) :
    (t1 - t0 < 2000 →
      getStatus ((getStatus c0 t0 u0).2.1) t1 u1 =
        ((getStatus c0 t0 u0).1, (getStatus c0 t0 u0).2.1, 0)) ∧
    (2000 ≤ t1 - t0 → (getStatus ((getStatus c0 t0 u0).2.1) t1 u1).2.2 = 1) := by
  have hne : t0 ≠ 0 := ne_of_gt ht0
  cases u0 with
  | ok d =>
    rw [getStatus_miss_ok c0 t0 d hmiss]
    constructor
    · intro hlt
      have hh : cacheHit ⟨some (normalizeStatus (d.getD emptyStatus) t0), some t0, c0.ttl⟩ t1 = true := by
        simp [cacheHit, hne, httl, hlt]
      rw [getStatus_hit_eq _ _ u1 hh]
      rfl
    · intro hge
      have hnot : ¬ (t1 - t0 < 2000) := not_lt.mpr hge
      have hh : cacheHit ⟨some (normalizeStatus (d.getD emptyStatus) t0), some t0, c0.ttl⟩ t1 = false := by
        simp [cacheHit, hne, httl, hnot]
      cases u1 with
      | ok e => rw [getStatus_miss_ok _ _ e hh]
      | failure => rw [getStatus_miss_failure _ _ hh]
  | failure =>
    rw [getStatus_miss_failure c0 t0 hmiss]
    constructor
    · intro hlt
      have hh : cacheHit ⟨some (offlineStatus t0), some t0, c0.ttl⟩ t1 = true := by
        simp [cacheHit, hne, httl, hlt]
      rw [getStatus_hit_eq _ _ u1 hh]
      rfl
    · intro hge
      have hnot : ¬ (t1 - t0 < 2000) := not_lt.mpr hge
      have hh : cacheHit ⟨some (offlineStatus t0), some t0, c0.ttl⟩ t1 = false := by
        simp [cacheHit, hne, httl, hnot]
      cases u1 with
      | ok e => rw [getStatus_miss_ok _ _ e hh]
      | failure => rw [getStatus_miss_failure _ _ hh]

/-- C4 witness: starting from the empty cache, a read at 1000 ms stores a
value, and a read at 1500 ms (within the TTL) serves that stored value with
no upstream read even though its own upstream would fail. -/
theorem getStatus_cache_ttl_witness :
    getStatus ((getStatus initialStatusCache 1000 (.ok (some emptyStatus))).2.1) 1500 .failure =
      ((getStatus initialStatusCache 1000 (.ok (some emptyStatus))).1,
        (getStatus initialStatusCache 1000 (.ok (some emptyStatus))).2.1, 0) :=
  (getStatus_cache_ttl initialStatusCache 1000 1500 (.ok (some emptyStatus)) .failure rfl
    (by decide) (by norm_num)).1 (by norm_num)

/-- C3: three measurements of one user inside the window, two on day d0 (heart
rate 70 and 74, systolic 120 and 122, diastolic 80 and 82) and one on day d1
(80, 125, 85), aggregate to exactly two entries: the d0 entry with averages
72, 121, 81 and the d1 entry with the single record's values, the d0 entry
first. -/
theorem getWeeklyReport_grouping (u d0 d1 : String) (t0 t0h t1 sevenAgo : ℚ)
    (hne : d0 ≠ d1) (h0 : sevenAgo ≤ t0) (h0h : sevenAgo ≤ t0h) (h1 : sevenAgo ≤ t1)
    (hlt : t0 < t1) :
    getWeeklyReport
      [⟨u, 70, 120, 80, ⟨t0, d0⟩⟩, ⟨u, 74, 122, 82, ⟨t0h, d0⟩⟩, ⟨u, 80, 125, 85, ⟨t1, d1⟩⟩]
      u sevenAgo =
    [⟨d0, 72, 121, 81, ⟨t0, d0⟩⟩, ⟨d1, 80, 125, 85, ⟨t1, d1⟩⟩] := by
  have hle : t0 ≤ t1 := le_of_lt hlt
  have hnot : ¬ (t1 ≤ t0) := not_le.mpr hlt
  simp [getWeeklyReport, dedupKeys, sortByDate, insertByDate, listAvg, hne, hne.symm,
    h0, h0h, h1, hle, hnot]
  norm_num

/-- C3 witness: the grouping instance at concrete dates and times. -/
theorem getWeeklyReport_grouping_witness :
    getWeeklyReport
      [⟨"u", 70, 120, 80, ⟨100, "2025-10-01"⟩⟩, ⟨"u", 74, 122, 82, ⟨200, "2025-10-01"⟩⟩,
        ⟨"u", 80, 125, 85, ⟨86400100, "2025-10-02"⟩⟩] "u" 0 =
    [⟨"2025-10-01", 72, 121, 81, ⟨100, "2025-10-01"⟩⟩,
      ⟨"2025-10-02", 80, 125, 85, ⟨86400100, "2025-10-02"⟩⟩] :=
  getWeeklyReport_grouping "u" "2025-10-01" "2025-10-02" 100 200 86400100 0
    (by decide) (by norm_num) (by norm_num) (by norm_num) (by norm_num)

end Watch
